import Mathlib

/-!
Verification of the authentication core in
`src/learning_fastapi/routers/security.py`: password hashing and
verification, JWT issuance and validation, principal resolution and the
login endpoint. Pure functions of the source are embedded directly; the
two external cryptographic libraries (passlib's bcrypt context and
python-jose's JWT codec) are not part of the repository's sources and are
modelled from the specification's description of their contracts.
-/

/-- Modelled from the spec: passlib's bcrypt hashing (external to `src/`).
A stored hash records the internally generated salt and a digest; the
digest is modelled as the hashed password itself, since the embedding only
needs the verification relation, not one-wayness. A stored string that is
not parseable as a hash of a supported scheme is `malformed`. -/
inductive StoredHash where
  | bcrypt (salt : Nat) (digest : String)
  | malformed (s : String)
deriving DecidableEq, Repr

/-- `get_password_hash` from security.py, delegating to `pwd_context.hash`.
Modelled from the spec: the salt is internally generated on each call; it
is made an explicit argument here to model that nondeterminism. -/
def get_password_hash (password : String) (salt : Nat) : StoredHash :=
  StoredHash.bcrypt salt password

/-- `verify_password` from security.py, delegating to `pwd_context.verify`.
Modelled from the spec: fails closed (returns false) on any malformed
stored hash rather than raising. -/
def verify_password (plain_password : String) (hashed_password : StoredHash) : Bool :=
  match hashed_password with
  | StoredHash.bcrypt _ digest => plain_password == digest
  | StoredHash.malformed _ => false

/-- The `User` pydantic model of security.py. -/
structure User where
  username : String
  email : Option String := none
  full_name : Option String := none
  disabled : Option Bool := none
deriving DecidableEq, Repr

/-- The `UserInDB` pydantic model of security.py. -/
structure UserInDB extends User where
  hashed_password : StoredHash
deriving DecidableEq, Repr

/-- `DB = dict[str, DBUser]` of security.py, as an association list. -/
abbrev DB := List (String × UserInDB)

/-- `get_user` from security.py: if the username is a key of the store,
return its record, else nothing. -/
def get_user (db : DB) (username : String) : Option UserInDB :=
  db.lookup username

/-- Modelled from the spec: the seeded bcrypt digest string
`$2b$12$EixZaYVK1fsbw1ZfbX3OXePaWxn96p36WQoeG6Lruj3vjPGga31lW` appears in
the source only as an opaque literal; its preimage (the correct password
of the seeded accounts) is not recoverable inside the embedding, so it is
modelled as a concrete stand-in password. -/
def seeded_password : String := "secret"

/-- The stored hash shared by both seeded records of `fake_users_db`. -/
def seeded_hash : StoredHash := StoredHash.bcrypt 12 seeded_password

/-- The `johndoe` record of `fake_users_db` in security.py. -/
def johndoe_user : UserInDB :=
  { username := "johndoe", full_name := some "John Doe",
    email := some "johndoe@example.com",
    hashed_password := seeded_hash, disabled := some false }

/-- The `alice` record of `fake_users_db` in security.py. -/
def alice_user : UserInDB :=
  { username := "alice", full_name := some "Alice",
    email := some "alice@example.com",
    hashed_password := seeded_hash, disabled := some true }

/-- `fake_users_db` from security.py. -/
def fake_users_db : DB :=
  [("johndoe", johndoe_user), ("alice", alice_user)]

/-- `authenticate_user` from security.py: look up the username; if absent
return failure (`False`, modelled as `none`); else return the record only
if the password verifies against its stored hash. -/
def authenticate_user (fake_db : DB) (username password : String) : Option UserInDB :=
  match get_user fake_db username with
  | none => none
  | some user =>
    if verify_password password user.hashed_password then some user else none

/-- `SECRET_KEY` from security.py. -/
def SECRET_KEY : String :=
  "09d25e094faa6ca2556c818166b7a9563b93f7099f6f0f4caa6cf63b88e8d3e7"

/-- `ALGORITHM` from security.py. -/
def ALGORITHM : String := "HS256"

/-- `ACCESS_TOKEN_EXPIRE_MINUTES` from security.py. -/
def ACCESS_TOKEN_EXPIRE_MINUTES : Int := 30

/-- The claim set of a token: optional subject and optional expiry
timestamp (seconds). -/
structure Claims where
  sub : Option String := none
  exp : Option Int := none
deriving DecidableEq, Repr

/-- The error taxonomy of token verification, from the spec's
`TokenError` kinds. -/
inductive JWTError where
  | malformed
  | bad_signature
  | expired
deriving DecidableEq, Repr

/-- A bearer token as presented to the server: either a string that does
not decode as a token structure at all, or a signed claim set carrying the
key and algorithm it was signed under. -/
inductive TokenRepr where
  | undecodable (s : String)
  | signed (claims : Claims) (key : String) (alg : String)
deriving DecidableEq, Repr

namespace jwt

/-- Modelled from the spec: python-jose `jwt.encode` (external to `src/`)
produces a signed, encoded token over the claim set under the given
symmetric key and algorithm. -/
def encode (claims : Claims) (key : String) (alg : String) : TokenRepr :=
  TokenRepr.signed claims key alg

/-- Modelled from the spec: python-jose `jwt.decode` (external to `src/`)
fails with `Malformed` if the structure cannot be decoded, with
`BadSignature` if the signature does not verify under the given key and
accepted algorithms, and with `Expired` if `expires_at <= now`; on success
it returns the claim set. -/
def decode (t : TokenRepr) (key : String) (algs : List String) (now : Int) :
    Except JWTError Claims :=
  match t with
  | TokenRepr.undecodable _ => Except.error JWTError.malformed
  | TokenRepr.signed claims k alg =>
    if k = key ∧ alg ∈ algs then
      match claims.exp with
      | some e => if e ≤ now then Except.error JWTError.expired else Except.ok claims
      | none => Except.ok claims
    else Except.error JWTError.bad_signature

end jwt

/-- `create_access_token` from security.py: the claim set is
`{"sub": username, "exp": utcnow + ACCESS_TOKEN_EXPIRE_MINUTES}` and the
token is signed with `SECRET_KEY` under `ALGORITHM`. The current time is
an explicit argument standing for `datetime.utcnow()`, in seconds. -/
def create_access_token (username : String) (now : Int) : TokenRepr :=
  jwt.encode
    { sub := some username, exp := some (now + ACCESS_TOKEN_EXPIRE_MINUTES * 60) }
    SECRET_KEY ALGORITHM

/-- `HTTPException` as raised by security.py: status code, detail message
and response headers. -/
structure HTTPException where
  status_code : Nat
  detail : String
  headers : List (String × String) := []
deriving DecidableEq, Repr

/-- The single generic `credentials_exception` of `get_current_user`. -/
def credentials_exception : HTTPException :=
  { status_code := 401, detail := "Could not validate credentials",
    headers := [("WWW-Authenticate", "Bearer")] }

/-- `get_current_user` from security.py: decode the token against
`SECRET_KEY`/`ALGORITHM`; on any `JWTError`, on a missing `sub` claim and
on a subject absent from `fake_users_db`, raise the one generic
`credentials_exception`; otherwise return the record. -/
def get_current_user (token : TokenRepr) (now : Int) :
    Except HTTPException UserInDB :=
  match jwt.decode token SECRET_KEY [ALGORITHM] now with
  | Except.error _ => Except.error credentials_exception
  | Except.ok payload =>
    match payload.sub with
    | none => Except.error credentials_exception
    | some username =>
      match get_user fake_users_db username with
      | none => Except.error credentials_exception
      | some user => Except.ok user

/-- `get_current_active_user` from security.py: raise 400 "Inactive user"
when the resolved record's `disabled` flag is truthy, else pass the record
through unchanged. -/
def get_current_active_user (current_user : UserInDB) :
    Except HTTPException UserInDB :=
  if current_user.disabled = some true then
    Except.error { status_code := 400, detail := "Inactive user" }
  else Except.ok current_user

/-- The dependency chain of the protected endpoints: resolve the current
user from the token, then apply the activation check. -/
def current_active_user_of_token (token : TokenRepr) (now : Int) :
    Except HTTPException UserInDB :=
  (get_current_user token now).bind get_current_active_user

/-- The `Token` response model of security.py. -/
structure Token where
  access_token : TokenRepr
  token_type : String
deriving DecidableEq, Repr

/-- `login_for_access_token` from security.py: authenticate the form
credentials against `fake_users_db`; on failure raise 401 with the generic
message and the `WWW-Authenticate: Bearer` header; on success issue an
access token for the user's username with token type "bearer". -/
def login_for_access_token (username password : String) (now : Int) :
    Except HTTPException Token :=
  match authenticate_user fake_users_db username password with
  | none =>
    Except.error
      { status_code := 401, detail := "Incorrect username or password",
        headers := [("WWW-Authenticate", "Bearer")] }
  | some user =>
    Except.ok
      { access_token := create_access_token user.username now,
        token_type := "bearer" }

/-- Claim C3: `create_access_token u now` is the token signed with the
server's secret key whose claim set is exactly
`{sub: u, exp: now + 30 minutes}`; it decodes successfully at
`now + 29` minutes and fails as expired at `now + 31` minutes. -/
theorem create_access_token_claims_and_expiry (u : String) (now : Int) :
    create_access_token u now
      = TokenRepr.signed { sub := some u, exp := some (now + 30 * 60) }
          SECRET_KEY ALGORITHM ∧
    jwt.decode (create_access_token u now) SECRET_KEY [ALGORITHM] (now + 29 * 60)
      = Except.ok { sub := some u, exp := some (now + 30 * 60) } ∧
    jwt.decode (create_access_token u now) SECRET_KEY [ALGORITHM] (now + 31 * 60)
      = Except.error JWTError.expired := by
  refine ⟨rfl, ?_, ?_⟩
  · simp only [create_access_token, jwt.encode, jwt.decode,
      ACCESS_TOKEN_EXPIRE_MINUTES]
    simp
  · simp only [create_access_token, jwt.encode, jwt.decode,
      ACCESS_TOKEN_EXPIRE_MINUTES]
    simp

/-- Claim C4: hashing then verifying the same password succeeds, and
verifying a different password against a hash fails, for every salt. -/
theorem password_hash_roundtrip (p p1 p2 : String) (s t : Nat) :
    verify_password p (get_password_hash p s) = true ∧
    (p1 ≠ p2 → verify_password p1 (get_password_hash p2 t) = false) := by
  constructor
  · simp [verify_password, get_password_hash]
  · intro h
    simp [verify_password, get_password_hash, h]

/-- Witness for C4 at concrete passwords and salts. -/
theorem password_hash_roundtrip_witness :
    verify_password "a" (get_password_hash "a" 0) = true ∧
    verify_password "a" (get_password_hash "b" 0) = false :=
  ⟨(password_hash_roundtrip "a" "a" "b" 0 0).1,
   (password_hash_roundtrip "a" "a" "b" 0 0).2 (by decide)⟩

/-- Claim C7: verifying any plaintext against a malformed stored hash
returns false (fails closed; the embedding is total, so no exception is
possible). -/
theorem verify_password_malformed_fails_closed (p s : String) :
    verify_password p (StoredHash.malformed s) = false := rfl

/-- Claim C8: two hashing calls drawing distinct salts for the same
password produce different hash values, and the password verifies against
both. -/
theorem get_password_hash_salted (p : String) (s1 s2 : Nat) (h : s1 ≠ s2) :
    get_password_hash p s1 ≠ get_password_hash p s2 ∧
    verify_password p (get_password_hash p s1) = true ∧
    verify_password p (get_password_hash p s2) = true := by
  refine ⟨?_, ?_, ?_⟩
  · simp [get_password_hash, h]
  · simp [verify_password, get_password_hash]
  · simp [verify_password, get_password_hash]

/-- Witness for C8 at a concrete password and salts. -/
theorem get_password_hash_salted_witness :
    get_password_hash "a" 0 ≠ get_password_hash "a" 1 ∧
    verify_password "a" (get_password_hash "a" 0) = true ∧
    verify_password "a" (get_password_hash "a" 1) = true :=
  get_password_hash_salted "a" 0 1 (by decide)

/-- Claim C1: on any decode failure (undecodable structure, bad signature,
expired) and on any decoded token whose subject is absent from the
credential store, `get_current_user` rejects with the one generic
unauthorized outcome: HTTP 401, header `WWW-Authenticate: Bearer`, detail
"Could not validate credentials" — failure reasons are indistinguishable. -/
theorem get_current_user_single_unauthorized (token : TokenRepr) (now : Int)
    (h : (∃ e, jwt.decode token SECRET_KEY [ALGORITHM] now = Except.error e) ∨
      (∀ c, jwt.decode token SECRET_KEY [ALGORITHM] now = Except.ok c →
        ∀ u, c.sub = some u → get_user fake_users_db u = none)) :
    get_current_user token now = Except.error
      { status_code := 401, detail := "Could not validate credentials",
        headers := [("WWW-Authenticate", "Bearer")] } := by
  unfold get_current_user
  rcases hd : jwt.decode token SECRET_KEY [ALGORITHM] now with e | c
  · rfl
  · rcases h with ⟨e, he⟩ | hnone
    · rw [hd] at he
      cases he
    · rcases hs : c.sub with _ | u
      · simp [hs, credentials_exception]
      · have hu := hnone c hd u hs
        simp [hs, hu, credentials_exception]

/-- Witness for C1 at a concrete undecodable token. -/
theorem get_current_user_single_unauthorized_witness :
    get_current_user (TokenRepr.undecodable "not.a.jwt") 0 = Except.error
      { status_code := 401, detail := "Could not validate credentials",
        headers := [("WWW-Authenticate", "Bearer")] } :=
  get_current_user_single_unauthorized (TokenRepr.undecodable "not.a.jwt") 0
    (Or.inl ⟨JWTError.malformed, rfl⟩)

/-- Claim C2: for a valid, unexpired, correctly-signed token whose subject
resolves to a stored record, the resolver chain rejects with HTTP 400
"Inactive user" exactly when the record is disabled, and otherwise returns
the record unchanged. -/
theorem get_current_active_user_disabled_policy (username : String)
    (u : UserInDB) (e now : Int)
    (hu : get_user fake_users_db username = some u) (hexp : now < e) :
    (u.disabled = some true →
      current_active_user_of_token
        (TokenRepr.signed { sub := some username, exp := some e }
          SECRET_KEY ALGORITHM) now
        = Except.error { status_code := 400, detail := "Inactive user" }) ∧
    (u.disabled ≠ some true →
      current_active_user_of_token
        (TokenRepr.signed { sub := some username, exp := some e }
          SECRET_KEY ALGORITHM) now
        = Except.ok u) := by
  have hne : ¬ e ≤ now := not_le.mpr hexp
  constructor
  · intro hdis
    simp [current_active_user_of_token, get_current_user, jwt.decode, hne,
      hu, Except.bind, get_current_active_user, hdis]
  · intro hdis
    simp [current_active_user_of_token, get_current_user, jwt.decode, hne,
      hu, Except.bind, get_current_active_user, hdis]

/-- Witness for C2: alice (disabled) is rejected with 400 "Inactive user";
johndoe (active) is returned unchanged. -/
theorem get_current_active_user_disabled_policy_witness :
    current_active_user_of_token
      (TokenRepr.signed { sub := some "alice", exp := some 100 }
        SECRET_KEY ALGORITHM) 0
      = Except.error { status_code := 400, detail := "Inactive user" } ∧
    current_active_user_of_token
      (TokenRepr.signed { sub := some "johndoe", exp := some 100 }
        SECRET_KEY ALGORITHM) 0
      = Except.ok johndoe_user :=
  ⟨(get_current_active_user_disabled_policy "alice" alice_user 100 0
      (by decide) (by decide)).1 (by decide),
   (get_current_active_user_disabled_policy "johndoe" johndoe_user 100 0
      (by decide) (by decide)).2 (by decide)⟩

/-- Claim C5: `authenticate_user` returns a record exactly when the
username is present and the password verifies against its stored hash, and
then returns that record; on the seeded store, johndoe's correct password
yields his record, a wrong password yields failure, and the unknown
username "nobody" yields failure. -/
theorem authenticate_user_spec (db : DB) (username password : String) :
    (∀ r, authenticate_user db username password = some r ↔
      (get_user db username = some r ∧
        verify_password password r.hashed_password = true)) ∧
    authenticate_user fake_users_db "johndoe" seeded_password
      = some johndoe_user ∧
    authenticate_user fake_users_db "johndoe" "wrong-password" = none ∧
    authenticate_user fake_users_db "nobody" "x" = none := by
  refine ⟨?_, by decide, by decide, by decide⟩
  intro r
  unfold authenticate_user
  rcases hu : get_user db username with _ | u
  · simp [hu]
  · show (if verify_password password u.hashed_password = true
        then some u else none) = some r
      ↔ some u = some r ∧ verify_password password r.hashed_password = true
    by_cases hv : verify_password password u.hashed_password = true
    · rw [if_pos hv]
      constructor
      · intro h
        obtain rfl : u = r := Option.some.inj h
        exact ⟨h, hv⟩
      · exact fun hr => hr.1
    · rw [if_neg hv]
      constructor
      · intro h
        exact Option.noConfusion h
      · intro hr
        obtain rfl : u = r := Option.some.inj hr.1
        exact absurd hr.2 hv

/-- Claim C6: the login endpoint returns
`{access_token, token_type := "bearer"}` for every credential pair that
authenticates, and rejects every pair that fails authentication with
HTTP 401, header `WWW-Authenticate: Bearer` and the generic message
"Incorrect username or password". -/
theorem login_for_access_token_contract (username password : String)
    (now : Int) :
    (authenticate_user fake_users_db username password = none →
      login_for_access_token username password now = Except.error
        { status_code := 401, detail := "Incorrect username or password",
          headers := [("WWW-Authenticate", "Bearer")] }) ∧
    (∀ r, authenticate_user fake_users_db username password = some r →
      login_for_access_token username password now = Except.ok
        { access_token := create_access_token r.username now,
          token_type := "bearer" }) := by
  constructor
  · intro h
    simp [login_for_access_token, h]
  · intro r h
    simp [login_for_access_token, h]

/-- Witness for C6: an unknown user is rejected with the generic 401; the
seeded johndoe credentials yield a bearer token. -/
theorem login_for_access_token_contract_witness :
    login_for_access_token "nobody" "x" 0 = Except.error
      { status_code := 401, detail := "Incorrect username or password",
        headers := [("WWW-Authenticate", "Bearer")] } ∧
    login_for_access_token "johndoe" seeded_password 0 = Except.ok
      { access_token := create_access_token "johndoe" 0,
        token_type := "bearer" } :=
  ⟨(login_for_access_token_contract "nobody" "x" 0).1 (by decide),
   (login_for_access_token_contract "johndoe" seeded_password 0).2
     johndoe_user (by decide)⟩

/-- Claim C9: login does not check the disabled flag — alice is seeded as
disabled, yet her correct password authenticates and the login endpoint
issues a token; the disabled status is only enforced per request by the
resolver chain ending in `get_current_active_user`. -/
theorem login_ignores_disabled_flag :
    alice_user.disabled = some true ∧
    authenticate_user fake_users_db "alice" seeded_password
      = some alice_user ∧
    login_for_access_token "alice" seeded_password 0 = Except.ok
      { access_token := create_access_token "alice" 0,
        token_type := "bearer" } ∧
    current_active_user_of_token (create_access_token "alice" 0) 60
      = Except.error { status_code := 400, detail := "Inactive user" } := by
  refine ⟨by decide, by decide, ?_, ?_⟩ <;> rfl

/-- Claim C10: a correctly-signed, unexpired token that carries no `sub`
claim is rejected by `get_current_user` with the same generic
`credentials_exception` (HTTP 401, "Could not validate credentials") as
any other token failure. -/
theorem get_current_user_missing_sub_rejected (e now : Int) (h : now < e) :
    get_current_user
      (TokenRepr.signed { sub := none, exp := some e } SECRET_KEY ALGORITHM)
      now
      = Except.error credentials_exception ∧
    credentials_exception
      = { status_code := 401, detail := "Could not validate credentials",
          headers := [("WWW-Authenticate", "Bearer")] } := by
  have hne : ¬ e ≤ now := not_le.mpr h
  constructor
  · simp [get_current_user, jwt.decode, hne]
  · rfl

/-- Witness for C10 at a concrete unexpired time. -/
theorem get_current_user_missing_sub_rejected_witness :
    get_current_user
      (TokenRepr.signed { sub := none, exp := some 100 } SECRET_KEY ALGORITHM)
      0
      = Except.error credentials_exception ∧
    credentials_exception
      = { status_code := 401, detail := "Could not validate credentials",
          headers := [("WWW-Authenticate", "Bearer")] } :=
  get_current_user_missing_sub_rejected 100 0 (by decide)
